import Mathlib

/-!
Verification of the meeting-transcript analysis pipeline of this repository
(files `meeting_analyzer/api.py` and `meeting_analyzer/azure_api.py`).

The two FastAPI modules are embedded shallowly:
* JSON values are the inductive `JValue`; Python `json.loads` is modelled by
  the executable parser `json_loads` (strict grammar; numbers restricted to
  integers, which covers every value the analysis schema uses);
* the regex fallback `re.search` of the pattern matching the first opening
  brace through the last closing brace is `extractBraced`;
* pydantic model construction (`ActionItem(**item)` etc., with every field
  required) is a validator returning `Except`;
* each route handler is a pure function; the LLM backend and the process
  environment are parameters (`provider`, `env`); raised `HTTPException`s
  are `Except.error` carrying status and detail, and the generic
  `except Exception` handler of the handlers maps any other failure to a
  500 with detail prefixed by the failure text;
* a `CallTrace` records how many times the handler constructed a provider
  client and invoked the provider, which models the call counter a test
  double would keep.
-/

set_option maxRecDepth 100000

/-- Python string falsiness check used by `if not request.transcript.strip()`:
whitespace characters stripped by `str.strip` (ASCII subset). -/
def isPySpace (c : Char) : Bool :=
  c == ' ' || c == '\t' || c == '\n' || c == '\r' || c == Char.ofNat 11 || c == Char.ofNat 12

/-- Model of Python `str.strip()` (ASCII whitespace). -/
def pyStrip (s : String) : String :=
  ⟨((s.data.dropWhile isPySpace).reverse.dropWhile isPySpace).reverse⟩

/-- Model of the Python slice `s[:n]` on text. -/
def pyTake (s : String) (n : Nat) : String :=
  ⟨s.data.take n⟩

/-- JSON values as produced by `json.loads` (numbers restricted to the
integers, the only numeric values appearing in the analysis schema). -/
inductive JValue where
  | null
  | bool (b : Bool)
  | num (n : Int)
  | str (s : String)
  | arr (elems : List JValue)
  | obj (fields : List (String × JValue))

/-- Dictionary lookup on a parsed JSON object: Python `dict` built by
`json.loads` keeps the last occurrence of a duplicated key. -/
def jget (fields : List (String × JValue)) (k : String) : Option JValue :=
  ((fields.filter (fun p => p.1 = k)).getLast?).map (fun p => p.2)

/-- Skip JSON whitespace. -/
def skipWs : List Char → List Char
  | [] => []
  | c :: cs =>
    if c == ' ' || c == '\t' || c == '\n' || c == '\r' then skipWs cs else c :: cs

/-- Hexadecimal digit value, for string escapes of the form backslash-u. -/
def hexVal (c : Char) : Option Nat :=
  if 48 ≤ c.toNat ∧ c.toNat ≤ 57 then some (c.toNat - 48)
  else if 97 ≤ c.toNat ∧ c.toNat ≤ 102 then some (c.toNat - 87)
  else if 65 ≤ c.toNat ∧ c.toNat ≤ 70 then some (c.toNat - 55)
  else none

/-- Parse the body of a JSON string literal (the opening quote already
consumed); returns the decoded characters and the rest of the input. -/
def parseJStr : Nat → List Char → Option (List Char × List Char)
  | 0, _ => none
  | _, [] => none
  | fuel + 1, c :: cs =>
    if c = Char.ofNat 34 then some ([], cs)
    else if c = Char.ofNat 92 then
      match cs with
      | [] => none
      | e :: cs2 =>
        let dec : Option (Char × List Char) :=
          if e = Char.ofNat 34 then some (Char.ofNat 34, cs2)
          else if e = Char.ofNat 92 then some (Char.ofNat 92, cs2)
          else if e = Char.ofNat 47 then some (Char.ofNat 47, cs2)
          else if e = 'n' then some (Char.ofNat 10, cs2)
          else if e = 't' then some (Char.ofNat 9, cs2)
          else if e = 'r' then some (Char.ofNat 13, cs2)
          else if e = 'b' then some (Char.ofNat 8, cs2)
          else if e = 'f' then some (Char.ofNat 12, cs2)
          else if e = 'u' then
            match cs2 with
            | h1 :: h2 :: h3 :: h4 :: cs3 =>
              match hexVal h1, hexVal h2, hexVal h3, hexVal h4 with
              | some a, some b, some c2, some d =>
                some (Char.ofNat (((a * 16 + b) * 16 + c2) * 16 + d), cs3)
              | _, _, _, _ => none
            | _ => none
          else none
        match dec with
        | some (ch, rest) =>
          match parseJStr fuel rest with
          | some (s, rest2) => some (ch :: s, rest2)
          | none => none
        | none => none
    else
      match parseJStr fuel cs with
      | some (s, rest) => some (c :: s, rest)
      | none => none

/-- Digits to a natural number. -/
def digitsToNat : List Char → Nat → Nat
  | [], acc => acc
  | c :: cs, acc => digitsToNat cs (acc * 10 + (c.toNat - 48))

/-- Parse a JSON integer (optional minus sign followed by digits). -/
def parseNum (cs : List Char) : Option (Int × List Char) :=
  let p : Bool × List Char :=
    match cs with
    | c :: rest => if c = Char.ofNat 45 then (true, rest) else (false, cs)
    | [] => (false, cs)
  let ds := p.2.takeWhile (fun c => 48 ≤ c.toNat && c.toNat ≤ 57)
  let rest := p.2.dropWhile (fun c => 48 ≤ c.toNat && c.toNat ≤ 57)
  if ds.isEmpty then none
  else
    let n : Int := Int.ofNat (digitsToNat ds 0)
    some (if p.1 then -n else n, rest)

/-- Request selector for the fused recursive-descent parser. -/
inductive PReq where
  | val
  | elems
  | members

/-- Result sum for the fused recursive-descent parser. -/
inductive PRes where
  | val (v : JValue)
  | elems (vs : List JValue)
  | members (ms : List (String × JValue))

/-- Fuel-indexed recursive-descent JSON parser (one structurally recursive
function so that every result evaluates inside the kernel). -/
def parseAux : Nat → PReq → List Char → Option (PRes × List Char)
  | 0, _, _ => none
  | fuel + 1, .val, cs =>
    match skipWs cs with
    | [] => none
    | c :: rest =>
      if c = Char.ofNat 123 then
        match skipWs rest with
        | c2 :: rest2 =>
          if c2 = Char.ofNat 125 then some (.val (.obj []), rest2)
          else
            match parseAux fuel .members (c2 :: rest2) with
            | some (.members ms, rest3) => some (.val (.obj ms), rest3)
            | _ => none
        | [] => none
      else if c = Char.ofNat 91 then
        match skipWs rest with
        | c2 :: rest2 =>
          if c2 = Char.ofNat 93 then some (.val (.arr []), rest2)
          else
            match parseAux fuel .elems (c2 :: rest2) with
            | some (.elems vs, rest3) => some (.val (.arr vs), rest3)
            | _ => none
        | [] => none
      else if c = Char.ofNat 34 then
        match parseJStr (fuel + 1) rest with
        | some (s, rest2) => some (.val (.str ⟨s⟩), rest2)
        | none => none
      else if c = 't' then
        match rest with
        | 'r' :: 'u' :: 'e' :: rest2 => some (.val (.bool true), rest2)
        | _ => none
      else if c = 'f' then
        match rest with
        | 'a' :: 'l' :: 's' :: 'e' :: rest2 => some (.val (.bool false), rest2)
        | _ => none
      else if c = 'n' then
        match rest with
        | 'u' :: 'l' :: 'l' :: rest2 => some (.val .null, rest2)
        | _ => none
      else
        match parseNum (c :: rest) with
        | some (n, rest2) => some (.val (.num n), rest2)
        | none => none
  | fuel + 1, .elems, cs =>
    match parseAux fuel .val cs with
    | some (.val v, rest) =>
      (match skipWs rest with
       | c :: rest2 =>
         if c = Char.ofNat 44 then
           match parseAux fuel .elems rest2 with
           | some (.elems vs, rest3) => some (.elems (v :: vs), rest3)
           | _ => none
         else if c = Char.ofNat 93 then some (.elems [v], rest2)
         else none
       | [] => none)
    | _ => none
  | fuel + 1, .members, cs =>
    match cs with
    | c :: rest =>
      if c = Char.ofNat 34 then
        match parseJStr (fuel + 1) rest with
        | some (kcs, rest2) =>
          (match skipWs rest2 with
           | c2 :: rest3 =>
             if c2 = Char.ofNat 58 then
               match parseAux fuel .val rest3 with
               | some (.val v, rest4) =>
                 (match skipWs rest4 with
                  | c3 :: rest5 =>
                    if c3 = Char.ofNat 44 then
                      match parseAux fuel .members (skipWs rest5) with
                      | some (.members ms, rest6) => some (.members ((⟨kcs⟩, v) :: ms), rest6)
                      | _ => none
                    else if c3 = Char.ofNat 125 then some (.members [(⟨kcs⟩, v)], rest5)
                    else none
                  | [] => none)
               | _ => none
             else none
           | [] => none)
        | none => none
      else none
    | [] => none

/-- Model of Python `json.loads`: strict parse of the whole text, failure
returned as `none` (the `json.JSONDecodeError` case). -/
def json_loads (s : String) : Option JValue :=
  match parseAux (2 * s.length + 4) .val s.data with
  | some (.val v, rest) => if (skipWs rest).isEmpty then some v else none
  | _ => none

/-- First index of a character in a list. -/
def firstIdxAux (c : Char) : List Char → Nat → Option Nat
  | [], _ => none
  | x :: xs, k => if x = c then some k else firstIdxAux c xs (k + 1)

/-- Last index of a character in a list. -/
def lastIdxAux (c : Char) : List Char → Nat → Option Nat → Option Nat
  | [], _, acc => acc
  | x :: xs, k, acc => lastIdxAux c xs (k + 1) (if x = c then some k else acc)

/-- Model of `re.search` with the raw pattern backslash-lbrace, any
characters (greedy), backslash-rbrace: the leftmost match of the greedy
pattern runs from the first opening brace through the last closing brace of
the text, provided the latter comes after the former. -/
def extractBraced (s : String) : Option String :=
  match firstIdxAux (Char.ofNat 123) s.data 0, lastIdxAux (Char.ofNat 125) s.data 0 none with
  | some i, some j =>
    if i < j then some ⟨(s.data.drop i).take (j - i + 1)⟩ else none
  | _, _ => none

/-- Python list comprehension over `Except`-valued item validation: the
first raised exception aborts the whole comprehension. -/
def mapExcept (f : α → Except ε β) : List α → Except ε (List β)
  | [] => .ok []
  | x :: xs =>
    match f x with
    | .error e => .error e
    | .ok y =>
      match mapExcept f xs with
      | .error e => .error e
      | .ok ys => .ok (y :: ys)

/-- A raised FastAPI `HTTPException`: status code and detail text. -/
structure HttpError where
  status : Nat
  detail : String
  deriving DecidableEq, Repr

/-- Counters a test double would keep: how many times the handler built a
provider client and how many times it invoked the provider. -/
structure CallTrace where
  clientCalls : Nat
  providerCalls : Nat
  deriving DecidableEq, Repr

/-- pydantic `ActionItem` (all three fields required strings). -/
structure ActionItem where
  task : String
  owner : String
  deadline : String
  deriving DecidableEq, Repr

/-- pydantic `OpenPoint` (all three fields required). -/
structure OpenPoint where
  topic : String
  context : String
  blocking : Bool
  deriving DecidableEq, Repr

/-- pydantic `FollowUpAssessment` (all three fields required). -/
structure FollowUpAssessment where
  follow_up_needed : Bool
  reason : String
  suggested_topics : List String
  deriving DecidableEq, Repr

/-- pydantic `MeetingFruitfulness` (all three fields required). -/
structure MeetingFruitfulness where
  score : Int
  verdict : String
  explanation : String
  deriving DecidableEq, Repr

/-- pydantic `AnalysisPrompt`. -/
structure AnalysisPrompt where
  prompt : String
  instructions : String
  deriving DecidableEq, Repr

/-- `ActionItem(**item)`: pydantic construction succeeds only when the item
is a mapping carrying string values for all of `task`, `owner`, `deadline`;
otherwise a `ValidationError` (or `TypeError`) is raised. The error text is
a stand-in for the Python exception message. -/
def actionItemOfJson : JValue → Except String ActionItem
  | .obj fs =>
    match jget fs "task", jget fs "owner", jget fs "deadline" with
    | some (.str t), some (.str o), some (.str d) => .ok ⟨t, o, d⟩
    | _, _, _ => .error "validation error for ActionItem"
  | _ => .error "action item is not a mapping"

/-- `OpenPoint(**point)`: `topic` and `context` must be strings and
`blocking` a boolean; any of them absent or of the wrong shape raises. -/
def openPointOfJson : JValue → Except String OpenPoint
  | .obj fs =>
    match jget fs "topic", jget fs "context", jget fs "blocking" with
    | some (.str t), some (.str c), some (.bool b) => .ok ⟨t, c, b⟩
    | _, _, _ => .error "validation error for OpenPoint"
  | _ => .error "open point is not a mapping"

/-- Validation of one element of `suggested_topics: list[str]`. -/
def strOfJson : JValue → Except String String
  | .str s => .ok s
  | _ => .error "validation error for list of strings"

/-- `FollowUpAssessment(**d)`: all three fields required. -/
def followUpOfJson : JValue → Except String FollowUpAssessment
  | .obj fs =>
    match jget fs "follow_up_needed", jget fs "reason", jget fs "suggested_topics" with
    | some (.bool b), some (.str r), some (.arr ts) =>
      match mapExcept strOfJson ts with
      | .ok topics => .ok ⟨b, r, topics⟩
      | .error e => .error e
    | _, _, _ => .error "validation error for FollowUpAssessment"
  | _ => .error "follow_up_assessment value is not a mapping"

/-- `MeetingFruitfulness(**d)`: all three fields required. -/
def fruitfulnessOfJson : JValue → Except String MeetingFruitfulness
  | .obj fs =>
    match jget fs "score", jget fs "verdict", jget fs "explanation" with
    | some (.num n), some (.str v), some (.str e) => .ok ⟨n, v, e⟩
    | _, _, _ => .error "validation error for MeetingFruitfulness"
  | _ => .error "fruitfulness value is not a mapping"

/-- Default dict passed when the reply lacks `follow_up_assessment`. -/
def defaultFollowUpJson : JValue :=
  .obj [("follow_up_needed", .bool false), ("reason", .str "Unable to determine"),
        ("suggested_topics", .arr [])]

/-- Default dict passed when the reply lacks `fruitfulness`. -/
def defaultFruitfulnessJson : JValue :=
  .obj [("score", .num 0), ("verdict", .str "Unable to analyze"),
        ("explanation", .str "Analysis failed")]

/-- The `action_items` keyword argument of the `MeetingAnalysis(...)` call
(identical in both files): `analysis_data.get("action_items", [])` iterated
through `ActionItem(**item)`. -/
def actionItemsOfJson (fields : List (String × JValue)) : Except String (List ActionItem) :=
  match (jget fields "action_items").getD (.arr []) with
  | .arr items => mapExcept actionItemOfJson items
  | _ => .error "action_items value is not a list"

/-- The `open_points` keyword argument: `analysis_data.get("open_points",
[])` iterated through `OpenPoint(**point)`. -/
def openPointsOfJson (fields : List (String × JValue)) : Except String (List OpenPoint) :=
  match (jget fields "open_points").getD (.arr []) with
  | .arr pts => mapExcept openPointOfJson pts
  | _ => .error "open_points value is not a list"

/-- The `follow_up_assessment` keyword argument:
`FollowUpAssessment(**analysis_data.get("follow_up_assessment", default))`. -/
def followUpOfData (fields : List (String × JValue)) : Except String FollowUpAssessment :=
  followUpOfJson ((jget fields "follow_up_assessment").getD defaultFollowUpJson)

/-- The `fruitfulness` keyword argument:
`MeetingFruitfulness(**analysis_data.get("fruitfulness", default))`. -/
def fruitfulnessOfData (fields : List (String × JValue)) : Except String MeetingFruitfulness :=
  fruitfulnessOfJson ((jget fields "fruitfulness").getD defaultFruitfulnessJson)

/-- Single-quote character, spelled by code point. -/
def apos : String := String.singleton (Char.ofNat 39)

/-- Text of `ANALYSIS_PROMPT` (identical in `api.py` and `azure_api.py`)
before the `transcript` placeholder, after Python `str.format` has turned
each doubled brace of the source literal into a single brace. -/
def promptHead : String :=
  "Analyze this meeting transcript and extract the following information.\n\n" ++
  "IMPORTANT: You MUST respond with valid JSON only. No markdown, no code blocks, just pure JSON.\n\n" ++
  "The JSON structure must be:\n" ++
  "\x7b\n" ++
  "  \"action_items\": [\n" ++
  "    \x7b\n" ++
  "      \"task\": \"What needs to be done\",\n" ++
  "      \"owner\": \"Who is responsible (use " ++ apos ++ "Unassigned" ++ apos ++ " if not mentioned)\",\n" ++
  "      \"deadline\": \"When it" ++ apos ++ "s due (use " ++ apos ++ "Not specified" ++ apos ++ " if not mentioned)\"\n" ++
  "    \x7d\n" ++
  "  ],\n" ++
  "  \"open_points\": [\n" ++
  "    \x7b\n" ++
  "      \"topic\": \"The unresolved issue or question\",\n" ++
  "      \"context\": \"Why it remains open\",\n" ++
  "      \"blocking\": true or false\n" ++
  "    \x7d\n" ++
  "  ],\n" ++
  "  \"follow_up_assessment\": \x7b\n" ++
  "    \"follow_up_needed\": true or false,\n" ++
  "    \"reason\": \"Why a follow-up is or isn" ++ apos ++ "t needed\",\n" ++
  "    \"suggested_topics\": [\"topic1\", \"topic2\"]\n" ++
  "  \x7d,\n" ++
  "  \"fruitfulness\": \x7b\n" ++
  "    \"score\": 0-100,\n" ++
  "    \"verdict\": \"Fruitful\" or \"Partially Productive\" or \"Not Fruitful\",\n" ++
  "    \"explanation\": \"Brief summary of why this score was given\"\n" ++
  "  \x7d\n" ++
  "\x7d\n\n" ++
  "Guidelines:\n" ++
  "- action_items: Extract all tasks with clear ownership. Use \"Unassigned\" if no owner is mentioned.\n" ++
  "- open_points: Topics discussed but NOT resolved. Set blocking=true if it blocks other work.\n" ++
  "- follow_up_assessment: Determine if another meeting is needed based on open points and pending decisions.\n" ++
  "- fruitfulness: Score based on decisions made, action items created, and issues resolved.\n" ++
  "  - 80-100: Fruitful (clear decisions, good progress)\n" ++
  "  - 50-79: Partially Productive (some progress, open items remain)\n" ++
  "  - 0-49: Not Fruitful (no clear outcomes, wasted time)\n\n" ++
  "TRANSCRIPT:\n---\n"

/-- Text of `ANALYSIS_PROMPT` after the `transcript` placeholder. -/
def promptTail : String :=
  "\n---\n\nRespond with ONLY the JSON object, no other text."

/-- `ANALYSIS_PROMPT.format(transcript=t)`. -/
def ANALYSIS_PROMPT_fmt (transcript : String) : String :=
  promptHead ++ transcript ++ promptTail

/-- Text of `LEGACY_ANALYSIS_PROMPT` (`api.py` only) before the
`transcript` placeholder. -/
def legacyHead : String :=
  "Analyze this meeting transcript and extract the following information:\n\n" ++
  "## 1. ACTION ITEMS\n" ++
  "For each action item found in the transcript:\n" ++
  "- Task: What needs to be done\n" ++
  "- Owner: Who is responsible (if mentioned, otherwise mark as \"Unassigned\")\n" ++
  "- Deadline: When it" ++ apos ++ "s due (if mentioned, otherwise mark as \"Not specified\")\n\n" ++
  "## 2. OPEN POINTS\n" ++
  "Topics that were discussed but NOT resolved:\n" ++
  "- Topic: The unresolved issue or question\n" ++
  "- Context: Why it remains open\n" ++
  "- Blocking: Is this blocking other work? (Yes/No)\n\n" ++
  "## 3. FOLLOW-UP ASSESSMENT\n" ++
  "- Follow-up needed: Yes or No\n" ++
  "- Reason: Why a follow-up is or isn" ++ apos ++ "t needed\n" ++
  "- Suggested topics: If follow-up is needed, what should be discussed\n\n" ++
  "## 4. MEETING FRUITFULNESS\n" ++
  "- Score: 0-100 (based on decisions made, action items created, and issues resolved)\n" ++
  "- Verdict: Fruitful / Partially Productive / Not Fruitful\n" ++
  "- Explanation: Brief summary of why this score was given\n\n" ++
  "TRANSCRIPT:\n---\n"

/-- Text of `LEGACY_ANALYSIS_PROMPT` after the `transcript` placeholder. -/
def legacyTail : String :=
  "\n---\n\nProvide your analysis in a clear, structured format using the sections above."

/-- `LEGACY_ANALYSIS_PROMPT.format(transcript=t)`. -/
def LEGACY_ANALYSIS_PROMPT_fmt (transcript : String) : String :=
  legacyHead ++ transcript ++ legacyTail

namespace Api

/-- Request body of `api.py` (Gemini service): transcript plus two optional
context integers. -/
structure TranscriptRequest where
  transcript : String
  meeting_duration_minutes : Option Int := none
  expected_attendees : Option Int := none
  deriving DecidableEq, Repr

/-- Response body of `api.py`. -/
structure MeetingAnalysis where
  action_items : List ActionItem
  open_points : List OpenPoint
  follow_up_assessment : FollowUpAssessment
  fruitfulness : MeetingFruitfulness
  deriving DecidableEq, Repr

/-- `get_gemini_client`: reads `GOOGLE_CLOUD_API_KEY` from the process
environment at call time; a missing or empty value (Python falsiness)
raises a 500. -/
def get_gemini_client (env : String → Option String) : Except HttpError Unit :=
  match env "GOOGLE_CLOUD_API_KEY" with
  | none => .error ⟨500, "GOOGLE_CLOUD_API_KEY environment variable not set"⟩
  | some api_key =>
    if api_key = "" then .error ⟨500, "GOOGLE_CLOUD_API_KEY environment variable not set"⟩
    else .ok ()

/-- Prompt construction of the `/analyze` handler of `api.py`: render
`ANALYSIS_PROMPT`, then prepend a context block when any of the optional
integers is truthy (Python `if request.meeting_duration_minutes:` treats
both `None` and `0` as false). -/
def buildPrompt (req : TranscriptRequest) : String :=
  let prompt := ANALYSIS_PROMPT_fmt req.transcript
  let context_parts : List String :=
    (match req.meeting_duration_minutes with
     | some d => if d = 0 then [] else ["Meeting duration: " ++ toString d ++ " minutes"]
     | none => []) ++
    (match req.expected_attendees with
     | some n => if n = 0 then [] else ["Expected attendees: " ++ toString n]
     | none => [])
  if context_parts.isEmpty then prompt
  else "Context:\n" ++ String.intercalate "\n" context_parts ++ "\n\n" ++ prompt

/-- Prompt construction of the `/analyze/prompt` handler of `api.py`: the
same context logic, but over `LEGACY_ANALYSIS_PROMPT`. -/
def buildLegacyPrompt (req : TranscriptRequest) : String :=
  let prompt := LEGACY_ANALYSIS_PROMPT_fmt req.transcript
  let context_parts : List String :=
    (match req.meeting_duration_minutes with
     | some d => if d = 0 then [] else ["Meeting duration: " ++ toString d ++ " minutes"]
     | none => []) ++
    (match req.expected_attendees with
     | some n => if n = 0 then [] else ["Expected attendees: " ++ toString n]
     | none => [])
  if context_parts.isEmpty then prompt
  else "Context:\n" ++ String.intercalate "\n" context_parts ++ "\n\n" ++ prompt

/-- Response parsing of `api.py`: strict `json.loads`, then on failure the
regex extraction of the first-to-last brace substring and a second strict
parse. No recoverable JSON raises a 500; a failing second parse raises
`json.JSONDecodeError`, which the enclosing `except Exception` turns into a
500 as well (that detail text stands in for the Python exception text). -/
def parseResponse (response_text : String) : Except HttpError JValue :=
  match json_loads response_text with
  | some v => .ok v
  | none =>
    match extractBraced response_text with
    | some sub =>
      match json_loads sub with
      | some v => .ok v
      | none => .error ⟨500, "Analysis failed: invalid JSON in extracted substring"⟩
    | none => .error ⟨500, "Failed to parse LLM response as JSON"⟩

/-- Field-by-field construction of `MeetingAnalysis` from the parsed reply
in `api.py`: `action_items` and `open_points` default to the empty list
when absent, `follow_up_assessment` and `fruitfulness` to their fixed
default dicts; each element then goes through pydantic validation, whose
failure aborts the whole construction. -/
def normalize (data : JValue) : Except String MeetingAnalysis :=
  match data with
  | .obj fields =>
    match actionItemsOfJson fields with
    | .error e => .error e
    | .ok action_items =>
      match openPointsOfJson fields with
      | .error e => .error e
      | .ok open_points =>
        match followUpOfData fields with
        | .error e => .error e
        | .ok fua =>
          match fruitfulnessOfData fields with
          | .error e => .error e
          | .ok fr => .ok ⟨action_items, open_points, fua, fr⟩
  | _ => .error "response is not a JSON object"

/-- The `/analyze` handler of `api.py`. `env` is the process environment,
`provider` the Gemini backend (an error value is a raised exception, which
the handler turns into a 500 with the exception text appended). The
`CallTrace` counts client constructions and provider invocations. -/
def analyze_transcript (env : String → Option String) (provider : String → Except String String)
    (req : TranscriptRequest) : Except HttpError MeetingAnalysis × CallTrace :=
  if pyStrip req.transcript = "" then
    (.error ⟨400, "Transcript cannot be empty"⟩, ⟨0, 0⟩)
  else
    let prompt := buildPrompt req
    match get_gemini_client env with
    | .error e => (.error e, ⟨1, 0⟩)
    | .ok _ =>
      match provider prompt with
      | .error e => (.error ⟨500, "Analysis failed: " ++ e⟩, ⟨1, 1⟩)
      | .ok response_text =>
        match parseResponse response_text with
        | .error e => (.error e, ⟨1, 1⟩)
        | .ok analysis_data =>
          match normalize analysis_data with
          | .error e => (.error ⟨500, "Analysis failed: " ++ e⟩, ⟨1, 1⟩)
          | .ok analysis => (.ok analysis, ⟨1, 1⟩)

/-- The `/analyze/prompt` handler of `api.py`: blank check, then the
rendered legacy prompt; no client is built and no provider is invoked. -/
def get_analysis_prompt (req : TranscriptRequest) : Except HttpError AnalysisPrompt :=
  if pyStrip req.transcript = "" then .error ⟨400, "Transcript cannot be empty"⟩
  else
    .ok ⟨buildLegacyPrompt req,
         "Send this prompt to an LLM (Claude, GPT-4, Gemini) to get the analysis"⟩

end Api

namespace AzureApi

/-- The `Literal["gpt-4.1", "gpt-5"]` model selector of `azure_api.py`. -/
inductive AzureModel where
  | gpt41
  | gpt5
  deriving DecidableEq, Repr

/-- The string carried by the selector. -/
def AzureModel.toStr : AzureModel → String
  | .gpt41 => "gpt-4.1"
  | .gpt5 => "gpt-5"

/-- One entry of `AZURE_CONFIGS`. -/
structure AzureConfig where
  endpoint : String
  deployment : String
  api_version : String
  api_key_env : String
  deriving DecidableEq, Repr

/-- The `AZURE_CONFIGS` table of `azure_api.py`. -/
def AZURE_CONFIGS : AzureModel → AzureConfig
  | .gpt41 =>
    ⟨"https://fy26-hackon-q3.openai.azure.com/", "fy26-hackon-q3-gpt-4.1",
     "2025-01-01-preview", "AZURE_OPENAI_API_KEY_GPT41"⟩
  | .gpt5 =>
    ⟨"https://siddh-m9gwv1hd-eastus2.cognitiveservices.azure.com/", "hackon-fy26q3-gpt5",
     "2025-01-01-preview", "AZURE_OPENAI_API_KEY_GPT5"⟩

/-- Request body of `azure_api.py`: transcript, three optional context
integers, and the model selector (default `gpt-4.1`). -/
structure TranscriptRequest where
  transcript : String
  meeting_duration_minutes : Option Int := none
  meeting_booked_duration : Option Int := none
  expected_attendees : Option Int := none
  model : AzureModel := .gpt41
  deriving DecidableEq, Repr

/-- Response body of `azure_api.py`: the four analysis sections plus the
model identifier and the optional computed time difference. -/
structure MeetingAnalysis where
  action_items : List ActionItem
  open_points : List OpenPoint
  follow_up_assessment : FollowUpAssessment
  fruitfulness : MeetingFruitfulness
  model_used : String
  timeDifference : Option Int := none
  deriving DecidableEq, Repr

/-- `get_azure_client`: looks up the per-model key name in the environment
at call time; a missing or empty key (Python falsiness) raises a 500. The
`model not in AZURE_CONFIGS` branch of the source is unreachable here
because the pydantic `Literal` type already restricts the selector. On
success the deployment name is returned. -/
def get_azure_client (env : String → Option String) (model : AzureModel) :
    Except HttpError String :=
  let config := AZURE_CONFIGS model
  match env config.api_key_env with
  | none =>
    .error ⟨500, config.api_key_env ++ " environment variable not set for model " ++ model.toStr⟩
  | some api_key =>
    if api_key = "" then
      .error ⟨500, config.api_key_env ++ " environment variable not set for model " ++ model.toStr⟩
    else .ok config.deployment

/-- Prompt construction shared by both handlers of `azure_api.py`: render
`ANALYSIS_PROMPT`, then prepend the context block when any optional integer
is truthy, in the order booked duration, actual duration, attendees. -/
def buildPrompt (req : TranscriptRequest) : String :=
  let prompt := ANALYSIS_PROMPT_fmt req.transcript
  let context_parts : List String :=
    (match req.meeting_booked_duration with
     | some d => if d = 0 then [] else ["Meeting booked duration: " ++ toString d ++ " minutes"]
     | none => []) ++
    (match req.meeting_duration_minutes with
     | some d => if d = 0 then [] else ["Actual meeting duration: " ++ toString d ++ " minutes"]
     | none => []) ++
    (match req.expected_attendees with
     | some n => if n = 0 then [] else ["Expected attendees: " ++ toString n]
     | none => [])
  if context_parts.isEmpty then prompt
  else "Context:\n" ++ String.intercalate "\n" context_parts ++ "\n\n" ++ prompt

/-- Response parsing of `azure_api.py` (same staging as `api.py`; the
no-JSON detail additionally carries the first 500 characters of the raw
reply, and the failing second parse is again a raised decode error that the
outer handler maps to a 500). -/
def parseResponse (response_text : String) : Except HttpError JValue :=
  match json_loads response_text with
  | some v => .ok v
  | none =>
    match extractBraced response_text with
    | some sub =>
      match json_loads sub with
      | some v => .ok v
      | none => .error ⟨500, "Analysis failed: invalid JSON in extracted substring"⟩
    | none =>
      .error ⟨500, "Failed to parse LLM response as JSON. Response: " ++ pyTake response_text 500⟩

/-- Field-by-field construction of `MeetingAnalysis` from the parsed reply
in `azure_api.py`; identical to `api.py` except for the extra
`model_used` and `timeDifference` fields. -/
def normalize (data : JValue) (model_used : String) (timeDifference : Option Int) :
    Except String MeetingAnalysis :=
  match data with
  | .obj fields =>
    match actionItemsOfJson fields with
    | .error e => .error e
    | .ok action_items =>
      match openPointsOfJson fields with
      | .error e => .error e
      | .ok open_points =>
        match followUpOfData fields with
        | .error e => .error e
        | .ok fua =>
          match fruitfulnessOfData fields with
          | .error e => .error e
          | .ok fr => .ok ⟨action_items, open_points, fua, fr, model_used, timeDifference⟩
  | _ => .error "response is not a JSON object"

/-- The `/analyze` handler of `azure_api.py`: blank check, prompt
construction, client construction, provider call, response parsing, the
`is not None` time-difference computation, and model construction. -/
def analyze_transcript (env : String → Option String) (provider : String → Except String String)
    (req : TranscriptRequest) : Except HttpError MeetingAnalysis × CallTrace :=
  if pyStrip req.transcript = "" then
    (.error ⟨400, "Transcript cannot be empty"⟩, ⟨0, 0⟩)
  else
    let prompt := buildPrompt req
    match get_azure_client env req.model with
    | .error e => (.error e, ⟨1, 0⟩)
    | .ok _deployment =>
      match provider prompt with
      | .error e => (.error ⟨500, "Analysis failed: " ++ e⟩, ⟨1, 1⟩)
      | .ok response_text =>
        match parseResponse response_text with
        | .error e => (.error e, ⟨1, 1⟩)
        | .ok analysis_data =>
          let time_difference : Option Int :=
            match req.meeting_booked_duration, req.meeting_duration_minutes with
            | some b, some a => some (b - a)
            | _, _ => none
          match normalize analysis_data req.model.toStr time_difference with
          | .error e => (.error ⟨500, "Analysis failed: " ++ e⟩, ⟨1, 1⟩)
          | .ok analysis => (.ok analysis, ⟨1, 1⟩)

/-- The `/analyze/prompt` handler of `azure_api.py`: blank check, then the
very same prompt the `/analyze` handler would send to the provider. -/
def get_analysis_prompt (req : TranscriptRequest) : Except HttpError AnalysisPrompt :=
  if pyStrip req.transcript = "" then .error ⟨400, "Transcript cannot be empty"⟩
  else
    .ok ⟨buildPrompt req,
         "Send this prompt to Azure OpenAI (" ++ req.model.toStr ++ ") to get the analysis"⟩

end AzureApi

/-! ### Concrete fixtures used by witnesses and counterexamples -/

/-- A well-formed provider reply (the wrapped variant of this object is the
running example of the specification). -/
def goodReply : String :=
  "\x7b\"action_items\": [], \"open_points\": [], \"follow_up_assessment\": \x7b\"follow_up_needed\": false, \"reason\": \"x\", \"suggested_topics\": []\x7d, \"fruitfulness\": \x7b\"score\": 10, \"verdict\": \"Not Fruitful\", \"explanation\": \"y\"\x7d\x7d"

/-- A reply whose only action item has a `task` but neither `owner` nor
`deadline`. -/
def replyNoOwner : String :=
  "\x7b\"action_items\": [\x7b\"task\": \"Send report\"\x7d], \"open_points\": [], \"follow_up_assessment\": \x7b\"follow_up_needed\": false, \"reason\": \"x\", \"suggested_topics\": []\x7d, \"fruitfulness\": \x7b\"score\": 10, \"verdict\": \"Not Fruitful\", \"explanation\": \"y\"\x7d\x7d"

/-- A reply whose only action item lacks the `task` field. -/
def replyNoTask : String :=
  "\x7b\"action_items\": [\x7b\"owner\": \"Priya\", \"deadline\": \"Friday\"\x7d], \"open_points\": [], \"follow_up_assessment\": \x7b\"follow_up_needed\": false, \"reason\": \"x\", \"suggested_topics\": []\x7d, \"fruitfulness\": \x7b\"score\": 10, \"verdict\": \"Not Fruitful\", \"explanation\": \"y\"\x7d\x7d"

/-- A reply whose only open point lacks the `blocking` field. -/
def replyNoBlocking : String :=
  "\x7b\"action_items\": [], \"open_points\": [\x7b\"topic\": \"Budget\", \"context\": \"Pending\"\x7d], \"follow_up_assessment\": \x7b\"follow_up_needed\": false, \"reason\": \"x\", \"suggested_topics\": []\x7d, \"fruitfulness\": \x7b\"score\": 10, \"verdict\": \"Not Fruitful\", \"explanation\": \"y\"\x7d\x7d"

/-- Environment double with every variable set. -/
def envOk : String → Option String := fun _ => some "test-key"

/-- Provider double answering every prompt with the fixed text `s`. -/
def providerOf (s : String) : String → Except String String := fun _ => Except.ok s

/-! ### Helper lemmas -/

/-- If some list element raises during the comprehension, the whole
comprehension raises. -/
theorem mapExcept_error_of_mem (f : α → Except ε β) (l : List α) (x : α)
    (hx : x ∈ l) (e : ε) (hf : f x = .error e) : ∃ e2, mapExcept f l = .error e2 := by
  induction l with
  | nil => cases hx
  | cons a as ih =>
    cases hx with
    | head => exact ⟨e, by simp [mapExcept, hf]⟩
    | tail _ hmem =>
      cases hfa : f a with
      | error e3 => exact ⟨e3, by simp [mapExcept, hfa]⟩
      | ok y =>
        obtain ⟨e2, h2⟩ := ih hmem
        exact ⟨e2, by simp [mapExcept, hfa, h2]⟩

/-- A successful Azure normalization carries exactly the time difference it
was handed. -/
theorem normalize_ok_timeDifference (data : JValue) (m : String) (td : Option Int)
    (res : AzureApi.MeetingAnalysis) (h : AzureApi.normalize data m td = .ok res) :
    res.timeDifference = td := by
  unfold AzureApi.normalize at h
  repeat' split at h
  all_goals (try simp at h)
  subst h
  rfl

/-- Being a prefix of `a ++ b` only depends on `a` once `a` is at least as
long as the candidate prefix. -/
theorem isPrefixOf_append_right [DecidableEq α] (p a b : List α) (h : p.length ≤ a.length) :
    (p.isPrefixOf (a ++ b)) = p.isPrefixOf a := by
  induction p generalizing a with
  | nil => simp [List.isPrefixOf]
  | cons c cs ih =>
    cases a with
    | nil => simp at h
    | cons x xs =>
      simp only [List.cons_append, List.isPrefixOf, List.append_eq]
      rw [ih xs (by simpa using h)]

/-- pydantic validation of an action item fails whenever one of the three
required fields is absent. -/
theorem actionItemOfJson_error_of_missing (ifs : List (String × JValue))
    (h : jget ifs "task" = none ∨ jget ifs "owner" = none ∨ jget ifs "deadline" = none) :
    actionItemOfJson (.obj ifs) = .error "validation error for ActionItem" := by
  rcases h with h | h | h <;>
  · simp only [actionItemOfJson]
    split
    · simp_all
    · rfl

/-- pydantic validation of an open point fails whenever `blocking` is
absent. -/
theorem openPointOfJson_error_of_missing (ifs : List (String × JValue))
    (h : jget ifs "blocking" = none) :
    openPointOfJson (.obj ifs) = .error "validation error for OpenPoint" := by
  simp only [openPointOfJson]
  split
  · simp_all
  · rfl

/-- A raising element inside the `action_items` list makes the whole
`action_items` keyword computation raise. -/
theorem actionItemsOfJson_error (fields : List (String × JValue)) (items : List JValue)
    (x : JValue) (msg : String) (h1 : jget fields "action_items" = some (.arr items))
    (hx : x ∈ items) (he : actionItemOfJson x = .error msg) :
    ∃ e, actionItemsOfJson fields = .error e := by
  obtain ⟨e2, hmap⟩ := mapExcept_error_of_mem _ _ _ hx _ he
  exact ⟨e2, by simp [actionItemsOfJson, h1, hmap]⟩

/-- A raising element inside the `open_points` list makes the whole
`open_points` keyword computation raise. -/
theorem openPointsOfJson_error (fields : List (String × JValue)) (pts : List JValue)
    (x : JValue) (msg : String) (h1 : jget fields "open_points" = some (.arr pts))
    (hx : x ∈ pts) (he : openPointOfJson x = .error msg) :
    ∃ e, openPointsOfJson fields = .error e := by
  obtain ⟨e2, hmap⟩ := mapExcept_error_of_mem _ _ _ hx _ he
  exact ⟨e2, by simp [openPointsOfJson, h1, hmap]⟩

/-- A raising `action_items` computation makes Gemini normalization raise. -/
theorem api_normalize_error_of_actionItems (fields : List (String × JValue)) (e : String)
    (h : actionItemsOfJson fields = .error e) :
    ∃ e2, Api.normalize (.obj fields) = .error e2 :=
  ⟨e, by simp [Api.normalize, h]⟩

/-- A raising `action_items` computation makes Azure normalization raise. -/
theorem azure_normalize_error_of_actionItems (fields : List (String × JValue)) (e : String)
    (m : String) (td : Option Int) (h : actionItemsOfJson fields = .error e) :
    ∃ e2, AzureApi.normalize (.obj fields) m td = .error e2 :=
  ⟨e, by simp [AzureApi.normalize, h]⟩

/-- A raising `open_points` computation makes Azure normalization raise
(whatever the `action_items` part did). -/
theorem azure_normalize_error_of_openPoints (fields : List (String × JValue)) (e : String)
    (m : String) (td : Option Int) (h : openPointsOfJson fields = .error e) :
    ∃ e2, AzureApi.normalize (.obj fields) m td = .error e2 := by
  cases hai : actionItemsOfJson fields with
  | error e3 => exact ⟨e3, by simp [AzureApi.normalize, hai]⟩
  | ok ai => exact ⟨e, by simp [AzureApi.normalize, hai, h]⟩

/-- Absent `fruitfulness` key: the keyword computation returns the fixed
default record. -/
theorem fruitfulnessOfData_absent (fields : List (String × JValue))
    (h : jget fields "fruitfulness" = none) :
    fruitfulnessOfData fields = .ok ⟨0, "Unable to analyze", "Analysis failed"⟩ := by
  unfold fruitfulnessOfData
  rw [h]
  rfl

/-- Absent `open_points` key: the keyword computation returns the empty
list. -/
theorem openPointsOfJson_absent (fields : List (String × JValue))
    (h : jget fields "open_points" = none) :
    openPointsOfJson fields = .ok [] := by
  unfold openPointsOfJson
  rw [h]
  rfl

/-- Whatever a successful run of the Azure handler returns carries the time
difference computed from the two optional durations by the `is not None`
checks. -/
theorem azure_analyze_ok_timeDifference (env : String → Option String)
    (provider : String → Except String String) (req : AzureApi.TranscriptRequest)
    (res : AzureApi.MeetingAnalysis) (tr : CallTrace)
    (h : AzureApi.analyze_transcript env provider req = (.ok res, tr)) :
    res.timeDifference =
      match req.meeting_booked_duration, req.meeting_duration_minutes with
      | some b, some a => some (b - a)
      | _, _ => none := by
  unfold AzureApi.analyze_transcript at h
  iterate 7 (all_goals (try split at h); all_goals (try simp at h))
  all_goals (
    obtain ⟨h1, h2⟩ := h
    subst h1
    exact normalize_ok_timeDifference _ _ _ _ (by assumption))

/-! ### Claim theorems -/

/-- C4: a blank or whitespace-only transcript makes both the full analysis
handler and the prompt-only handler of both services fail with status 400
and the fixed detail text, with zero client constructions and zero provider
invocations. -/
theorem c4_blank_transcript_rejected (t : String) (h : pyStrip t = "") :
    (∀ env provider (req : AzureApi.TranscriptRequest), req.transcript = t →
       AzureApi.analyze_transcript env provider req =
         (Except.error ⟨400, "Transcript cannot be empty"⟩, ⟨0, 0⟩)) ∧
    (∀ req : AzureApi.TranscriptRequest, req.transcript = t →
       AzureApi.get_analysis_prompt req = Except.error ⟨400, "Transcript cannot be empty"⟩) ∧
    (∀ env provider (req : Api.TranscriptRequest), req.transcript = t →
       Api.analyze_transcript env provider req =
         (Except.error ⟨400, "Transcript cannot be empty"⟩, ⟨0, 0⟩)) ∧
    (∀ req : Api.TranscriptRequest, req.transcript = t →
       Api.get_analysis_prompt req = Except.error ⟨400, "Transcript cannot be empty"⟩) := by
  refine ⟨?_, ?_, ?_, ?_⟩
  · intro env provider req hreq
    simp [AzureApi.analyze_transcript, hreq, h]
  · intro req hreq
    simp [AzureApi.get_analysis_prompt, hreq, h]
  · intro env provider req hreq
    simp [Api.analyze_transcript, hreq, h]
  · intro req hreq
    simp [Api.get_analysis_prompt, hreq, h]

/-- C4 witness: a concrete whitespace-only transcript. -/
theorem c4_blank_transcript_rejected_witness :
    AzureApi.analyze_transcript envOk (providerOf goodReply) ⟨"  \t ", none, none, none, .gpt41⟩ =
      (Except.error ⟨400, "Transcript cannot be empty"⟩, ⟨0, 0⟩) ∧
    Api.get_analysis_prompt ⟨" ", none, none⟩ =
      Except.error ⟨400, "Transcript cannot be empty"⟩ :=
  ⟨(c4_blank_transcript_rejected "  \t " rfl).1 envOk (providerOf goodReply)
      ⟨"  \t ", none, none, none, .gpt41⟩ rfl,
   (c4_blank_transcript_rejected " " rfl).2.2.2 ⟨" ", none, none⟩ rfl⟩

/-- C5: when both durations are supplied, a successful Azure analysis
carries time difference booked minus actual; when at most one is supplied,
the field is absent. -/
theorem c5_time_difference :
    (∀ env provider (req : AzureApi.TranscriptRequest) (b a : Int)
       (res : AzureApi.MeetingAnalysis) (tr : CallTrace),
       req.meeting_booked_duration = some b →
       req.meeting_duration_minutes = some a →
       AzureApi.analyze_transcript env provider req = (.ok res, tr) →
       res.timeDifference = some (b - a)) ∧
    (∀ env provider (req : AzureApi.TranscriptRequest)
       (res : AzureApi.MeetingAnalysis) (tr : CallTrace),
       (req.meeting_booked_duration = none ∨ req.meeting_duration_minutes = none) →
       AzureApi.analyze_transcript env provider req = (.ok res, tr) →
       res.timeDifference = none) := by
  constructor
  · intro env provider req b a res tr hb ha h
    have hm := azure_analyze_ok_timeDifference env provider req res tr h
    rw [hb, ha] at hm
    simpa using hm
  · intro env provider req res tr hone h
    have hm := azure_analyze_ok_timeDifference env provider req res tr h
    rcases hbd : req.meeting_booked_duration with _ | b <;>
      rcases hmd : req.meeting_duration_minutes with _ | a <;>
      rw [hbd, hmd] at hm <;> simp_all

/-- C5 witness: booked 60 and actual 45 give 15 on a full concrete run. -/
theorem c5_time_difference_witness :
    (⟨[], [], ⟨false, "x", []⟩, ⟨10, "Not Fruitful", "y"⟩, "gpt-4.1", some 15⟩ :
        AzureApi.MeetingAnalysis).timeDifference = some (60 - 45) :=
  c5_time_difference.1 envOk (providerOf goodReply) ⟨"hello", some 45, some 60, none, .gpt41⟩
    60 45 ⟨[], [], ⟨false, "x", []⟩, ⟨10, "Not Fruitful", "y"⟩, "gpt-4.1", some 15⟩ ⟨1, 1⟩
    rfl rfl rfl


/-- A successful Azure normalization reproduces exactly the result of the
`fruitfulness` keyword computation. -/
theorem azure_normalize_ok_fruitfulness (fields : List (String × JValue)) (m : String)
    (td : Option Int) (res : AzureApi.MeetingAnalysis)
    (h : AzureApi.normalize (.obj fields) m td = .ok res) :
    fruitfulnessOfData fields = .ok res.fruitfulness := by
  unfold AzureApi.normalize at h
  iterate 6 (all_goals (try split at h); all_goals (try simp at h))
  all_goals (subst h; simp_all)

/-- A successful Gemini normalization reproduces exactly the result of the
`fruitfulness` keyword computation. -/
theorem api_normalize_ok_fruitfulness (fields : List (String × JValue))
    (res : Api.MeetingAnalysis) (h : Api.normalize (.obj fields) = .ok res) :
    fruitfulnessOfData fields = .ok res.fruitfulness := by
  unfold Api.normalize at h
  iterate 6 (all_goals (try split at h); all_goals (try simp at h))
  all_goals (subst h; simp_all)

/-- A successful Azure normalization reproduces exactly the result of the
`open_points` keyword computation. -/
theorem azure_normalize_ok_openPoints (fields : List (String × JValue)) (m : String)
    (td : Option Int) (res : AzureApi.MeetingAnalysis)
    (h : AzureApi.normalize (.obj fields) m td = .ok res) :
    openPointsOfJson fields = .ok res.open_points := by
  unfold AzureApi.normalize at h
  iterate 6 (all_goals (try split at h); all_goals (try simp at h))
  all_goals (subst h; simp_all)

/-- C6: a parsed reply without the `fruitfulness` key normalizes (in both
services) to the fixed default fruitfulness record whenever normalization
succeeds at all. -/
theorem c6_fruitfulness_default (fields : List (String × JValue))
    (h : jget fields "fruitfulness" = none) :
    (∀ (m : String) (td : Option Int) (res : AzureApi.MeetingAnalysis),
       AzureApi.normalize (.obj fields) m td = .ok res →
       res.fruitfulness = ⟨0, "Unable to analyze", "Analysis failed"⟩) ∧
    (∀ res : Api.MeetingAnalysis,
       Api.normalize (.obj fields) = .ok res →
       res.fruitfulness = ⟨0, "Unable to analyze", "Analysis failed"⟩) := by
  have hf := fruitfulnessOfData_absent fields h
  constructor
  · intro m td res hres
    have h2 := azure_normalize_ok_fruitfulness fields m td res hres
    rw [hf] at h2
    exact (Except.ok.inj h2).symm
  · intro res hres
    have h2 := api_normalize_ok_fruitfulness fields res hres
    rw [hf] at h2
    exact (Except.ok.inj h2).symm

/-- C6 witness: the empty object normalizes with the default record. -/
theorem c6_fruitfulness_default_witness :
    (⟨[], [], ⟨false, "Unable to determine", []⟩, ⟨0, "Unable to analyze", "Analysis failed"⟩,
        "gpt-4.1", none⟩ : AzureApi.MeetingAnalysis).fruitfulness =
      ⟨0, "Unable to analyze", "Analysis failed"⟩ :=
  (c6_fruitfulness_default [] rfl).1 "gpt-4.1" none
    ⟨[], [], ⟨false, "Unable to determine", []⟩, ⟨0, "Unable to analyze", "Analysis failed"⟩,
     "gpt-4.1", none⟩ rfl

/-- C3: a raw reply that neither parses as JSON as a whole nor via the
first-to-last-brace substring is rejected by both services with a
500-status error, never replaced by a default empty analysis; the same
failure propagates out of the full Azure handler. -/
theorem c3_unparsable_reply_is_server_error (raw : String)
    (h1 : json_loads raw = none)
    (h2 : ∀ sub, extractBraced raw = some sub → json_loads sub = none) :
    (∃ msg, AzureApi.parseResponse raw = Except.error ⟨500, msg⟩) ∧
    (∃ msg, Api.parseResponse raw = Except.error ⟨500, msg⟩) ∧
    (∀ env provider (req : AzureApi.TranscriptRequest) (d : String),
       pyStrip req.transcript ≠ "" →
       AzureApi.get_azure_client env req.model = Except.ok d →
       provider (AzureApi.buildPrompt req) = Except.ok raw →
       ∃ msg, (AzureApi.analyze_transcript env provider req).1 = Except.error ⟨500, msg⟩) := by
  have hAz : ∃ msg, AzureApi.parseResponse raw = Except.error ⟨500, msg⟩ := by
    unfold AzureApi.parseResponse
    rw [h1]
    cases hx : extractBraced raw with
    | none =>
      exact ⟨"Failed to parse LLM response as JSON. Response: " ++ pyTake raw 500, by simp⟩
    | some sub =>
      exact ⟨"Analysis failed: invalid JSON in extracted substring", by simp [h2 sub hx]⟩
  have hApi : ∃ msg, Api.parseResponse raw = Except.error ⟨500, msg⟩ := by
    unfold Api.parseResponse
    rw [h1]
    cases hx : extractBraced raw with
    | none => exact ⟨"Failed to parse LLM response as JSON", by simp⟩
    | some sub =>
      exact ⟨"Analysis failed: invalid JSON in extracted substring", by simp [h2 sub hx]⟩
  refine ⟨hAz, hApi, ?_⟩
  intro env provider req d hb hc hp
  obtain ⟨msg, hmsg⟩ := hAz
  refine ⟨msg, ?_⟩
  simp [AzureApi.analyze_transcript, if_neg hb, hc, hp, hmsg]

/-- C3 witness: the text `not json at all` is rejected by both parse
stages of both services. -/
theorem c3_unparsable_reply_is_server_error_witness :
    (∃ msg, AzureApi.parseResponse "not json at all" = Except.error ⟨500, msg⟩) ∧
    (∃ msg, Api.parseResponse "not json at all" = Except.error ⟨500, msg⟩) := by
  have h2 : ∀ sub, extractBraced "not json at all" = some sub → json_loads sub = none := by
    intro sub hs
    rw [show extractBraced "not json at all" = none from rfl] at hs
    exact Option.noConfusion hs
  exact ⟨(c3_unparsable_reply_is_server_error "not json at all" rfl h2).1,
         (c3_unparsable_reply_is_server_error "not json at all" rfl h2).2.1⟩

/-- The context lines as the design describes them: one human-readable
line per supplied field, in the fixed order booked duration, actual
duration, attendee count. Statement-side description, to be compared with
the prompt the `azure_api.py` handlers build. -/
def specContextLines (req : AzureApi.TranscriptRequest) : List String :=
  (req.meeting_booked_duration.map
    (fun d => "Meeting booked duration: " ++ toString d ++ " minutes")).toList ++
  (req.meeting_duration_minutes.map
    (fun d => "Actual meeting duration: " ++ toString d ++ " minutes")).toList ++
  (req.expected_attendees.map
    (fun n => "Expected attendees: " ++ toString n)).toList

/-- C7: with no context fields the rendered instruction is exactly the bare
template rendering, which embeds the transcript verbatim and starts with
the fixed analysis preamble rather than a context block; with context
fields supplied (positive, per the data model) the context block listing
them in the fixed order booked, actual, attendees is prepended. -/
theorem c7_context_block :
    (∀ req : AzureApi.TranscriptRequest,
       req.meeting_booked_duration = none →
       req.meeting_duration_minutes = none →
       req.expected_attendees = none →
       AzureApi.buildPrompt req = ANALYSIS_PROMPT_fmt req.transcript ∧
       (∃ pre post, AzureApi.buildPrompt req = pre ++ req.transcript ++ post) ∧
       ("Context:".data.isPrefixOf (AzureApi.buildPrompt req).data) = false) ∧
    (∀ req : AzureApi.TranscriptRequest,
       (∀ d, req.meeting_booked_duration = some d → d ≠ 0) →
       (∀ d, req.meeting_duration_minutes = some d → d ≠ 0) →
       (∀ d, req.expected_attendees = some d → d ≠ 0) →
       (req.meeting_booked_duration ≠ none ∨ req.meeting_duration_minutes ≠ none ∨
         req.expected_attendees ≠ none) →
       AzureApi.buildPrompt req =
         "Context:\n" ++ String.intercalate "\n" (specContextLines req) ++ "\n\n" ++
           ANALYSIS_PROMPT_fmt req.transcript) := by
  constructor
  · intro req h1 h2 h3
    have hb : AzureApi.buildPrompt req = ANALYSIS_PROMPT_fmt req.transcript := by
      simp [AzureApi.buildPrompt, h1, h2, h3]
    refine ⟨hb, ⟨promptHead, promptTail, by rw [hb]; rfl⟩, ?_⟩
    rw [hb]
    show ("Context:".data.isPrefixOf ((promptHead ++ req.transcript) ++ promptTail).data) = false
    rw [String.append_assoc, String.data_append]
    rw [isPrefixOf_append_right _ _ _ (by decide)]
    decide
  · intro req hb0 ha0 he0 hne
    obtain ⟨t, md, bd, ea, m⟩ := req
    rcases bd with _ | b <;> rcases md with _ | a <;> rcases ea with _ | n
    · rcases hne with hx | hx | hx <;> simp at hx
    · simp [AzureApi.buildPrompt, specContextLines, he0 n rfl]
    · simp [AzureApi.buildPrompt, specContextLines, ha0 a rfl]
    · simp [AzureApi.buildPrompt, specContextLines, ha0 a rfl, he0 n rfl]
    · simp [AzureApi.buildPrompt, specContextLines, hb0 b rfl]
    · simp [AzureApi.buildPrompt, specContextLines, hb0 b rfl, he0 n rfl]
    · simp [AzureApi.buildPrompt, specContextLines, hb0 b rfl, ha0 a rfl]
    · simp [AzureApi.buildPrompt, specContextLines, hb0 b rfl, ha0 a rfl, he0 n rfl]

/-- C7 witness: concrete requests without and with context fields. -/
theorem c7_context_block_witness :
    AzureApi.buildPrompt ⟨"hello", none, none, none, .gpt41⟩ = ANALYSIS_PROMPT_fmt "hello" ∧
    AzureApi.buildPrompt ⟨"hello", some 45, some 60, some 5, .gpt41⟩ =
      "Context:\n" ++
        String.intercalate "\n" (specContextLines ⟨"hello", some 45, some 60, some 5, .gpt41⟩) ++
        "\n\n" ++ ANALYSIS_PROMPT_fmt "hello" :=
  ⟨(c7_context_block.1 ⟨"hello", none, none, none, .gpt41⟩ rfl rfl rfl).1,
   c7_context_block.2 ⟨"hello", some 45, some 60, some 5, .gpt41⟩
     (fun d hd => by simp at hd; subst hd; decide)
     (fun d hd => by simp at hd; subst hd; decide)
     (fun d hd => by simp at hd; subst hd; decide)
     (Or.inl (by simp))⟩

/-- C10: the truthiness check of the context block and the `is not None`
check of the time difference disagree at zero: an actual duration supplied
as 0 is dropped from the context block, yet the time difference is still
computed from it. -/
theorem c10_zero_duration_truthiness (env : String → Option String)
    (provider : String → Except String String) (req : AzureApi.TranscriptRequest)
    (b : Int) (hb : b ≠ 0)
    (h1 : req.meeting_duration_minutes = some 0)
    (h2 : req.meeting_booked_duration = some b)
    (h3 : req.expected_attendees = none) :
    AzureApi.buildPrompt req =
      "Context:\n" ++
        String.intercalate "\n" ["Meeting booked duration: " ++ toString b ++ " minutes"] ++
        "\n\n" ++ ANALYSIS_PROMPT_fmt req.transcript ∧
    (∀ (res : AzureApi.MeetingAnalysis) (tr : CallTrace),
       AzureApi.analyze_transcript env provider req = (.ok res, tr) →
       res.timeDifference = some (b - 0)) := by
  constructor
  · simp [AzureApi.buildPrompt, h1, h2, h3, hb]
  · intro res tr h
    have hm := azure_analyze_ok_timeDifference env provider req res tr h
    rw [h1, h2] at hm
    simpa using hm

/-- C10 witness: booked 60 with actual 0 on a full concrete run gives a
context block carrying only the booked line and a time difference of 60. -/
theorem c10_zero_duration_truthiness_witness :
    AzureApi.buildPrompt ⟨"hello", some 0, some 60, none, .gpt41⟩ =
      "Context:\n" ++
        String.intercalate "\n" ["Meeting booked duration: " ++ toString (60 : Int) ++ " minutes"] ++
        "\n\n" ++ ANALYSIS_PROMPT_fmt "hello" ∧
    (⟨[], [], ⟨false, "x", []⟩, ⟨10, "Not Fruitful", "y"⟩, "gpt-4.1", some 60⟩ :
        AzureApi.MeetingAnalysis).timeDifference = some ((60 : Int) - 0) :=
  ⟨(c10_zero_duration_truthiness envOk (providerOf goodReply)
      ⟨"hello", some 0, some 60, none, .gpt41⟩ 60 (by decide) rfl rfl rfl).1,
   (c10_zero_duration_truthiness envOk (providerOf goodReply)
      ⟨"hello", some 0, some 60, none, .gpt41⟩ 60 (by decide) rfl rfl rfl).2
     ⟨[], [], ⟨false, "x", []⟩, ⟨10, "Not Fruitful", "y"⟩, "gpt-4.1", some 60⟩ ⟨1, 1⟩ rfl⟩

/-- Parsed object of `replyNoOwner`: only action item has just a task. -/
def noOwnerFields : List (String × JValue) :=
  [("action_items", .arr [.obj [("task", .str "Send report")]])]

/-- Parsed object whose only action item lacks the `task` key. -/
def noTaskFields : List (String × JValue) :=
  [("action_items", .arr [.obj [("owner", .str "Priya"), ("deadline", .str "Friday")]])]

/-- Parsed object whose only open point lacks the `blocking` key. -/
def noBlockingFields : List (String × JValue) :=
  [("open_points", .arr [.obj [("topic", .str "Budget"), ("context", .str "Pending")]])]

/-- C1 counterexample: an action item with a task but no owner or deadline
makes the whole Gemini analysis call fail with a 500, instead of being
filled with sentinel values. -/
theorem c1_counterexample :
    (Api.analyze_transcript envOk (providerOf replyNoOwner) ⟨"hello", none, none⟩).1 =
      Except.error ⟨500, "Analysis failed: validation error for ActionItem"⟩ := rfl

/-- C1 amended: an action item that has a task but lacks owner or deadline
makes normalization of both services raise a validation error (the
sentinels are only requested from the model inside the prompt text, never
filled in by the code). -/
theorem c1_amended_missing_owner_fails (fields : List (String × JValue))
    (items : List JValue) (ifs : List (String × JValue)) (t : String)
    (h1 : jget fields "action_items" = some (.arr items))
    (h2 : JValue.obj ifs ∈ items)
    (_h3 : jget ifs "task" = some (.str t))
    (h4 : jget ifs "owner" = none ∨ jget ifs "deadline" = none) :
    (∃ e, Api.normalize (.obj fields) = Except.error e) ∧
    (∀ m td, ∃ e, AzureApi.normalize (.obj fields) m td = Except.error e) := by
  have he := actionItemOfJson_error_of_missing ifs (Or.inr h4)
  obtain ⟨e, hae⟩ := actionItemsOfJson_error fields items _ _ h1 h2 he
  exact ⟨api_normalize_error_of_actionItems fields e hae,
         fun m td => azure_normalize_error_of_actionItems fields e m td hae⟩

/-- C1 witness: the concrete task-only action item. -/
theorem c1_amended_missing_owner_fails_witness :
    (∃ e, Api.normalize (.obj noOwnerFields) = Except.error e) ∧
    (∃ e, AzureApi.normalize (.obj noOwnerFields) "gpt-4.1" none = Except.error e) :=
  ⟨(c1_amended_missing_owner_fails noOwnerFields _ _ "Send report" rfl
      (List.mem_singleton.mpr rfl) rfl (Or.inl rfl)).1,
   (c1_amended_missing_owner_fails noOwnerFields _ _ "Send report" rfl
      (List.mem_singleton.mpr rfl) rfl (Or.inl rfl)).2 "gpt-4.1" none⟩

/-- C2 counterexample: an action item without a task makes the whole Azure
analysis call fail with a 500 instead of being dropped. -/
theorem c2_counterexample :
    (AzureApi.analyze_transcript envOk (providerOf replyNoTask)
        ⟨"hello", none, none, none, .gpt41⟩).1 =
      Except.error ⟨500, "Analysis failed: validation error for ActionItem"⟩ := rfl

/-- C2 amended: an action item lacking the task key is not dropped: it
makes normalization of both services raise, so the whole analysis call
fails. -/
theorem c2_amended_missing_task_fails (fields : List (String × JValue))
    (items : List JValue) (ifs : List (String × JValue))
    (h1 : jget fields "action_items" = some (.arr items))
    (h2 : JValue.obj ifs ∈ items)
    (h3 : jget ifs "task" = none) :
    (∃ e, Api.normalize (.obj fields) = Except.error e) ∧
    (∀ m td, ∃ e, AzureApi.normalize (.obj fields) m td = Except.error e) := by
  have he := actionItemOfJson_error_of_missing ifs (Or.inl h3)
  obtain ⟨e, hae⟩ := actionItemsOfJson_error fields items _ _ h1 h2 he
  exact ⟨api_normalize_error_of_actionItems fields e hae,
         fun m td => azure_normalize_error_of_actionItems fields e m td hae⟩

/-- C2 witness: the concrete task-less action item. -/
theorem c2_amended_missing_task_fails_witness :
    (∃ e, Api.normalize (.obj noTaskFields) = Except.error e) ∧
    (∃ e, AzureApi.normalize (.obj noTaskFields) "gpt-4.1" none = Except.error e) :=
  ⟨(c2_amended_missing_task_fails noTaskFields _ _ rfl
      (List.mem_singleton.mpr rfl) rfl).1,
   (c2_amended_missing_task_fails noTaskFields _ _ rfl
      (List.mem_singleton.mpr rfl) rfl).2 "gpt-4.1" none⟩

/-- C8 counterexample: in the Gemini service the prompt-only handler
renders the legacy template, so its text differs from the instruction the
full handler sends to the provider. -/
theorem c8_counterexample :
    (Api.get_analysis_prompt ⟨"hello", none, none⟩).toOption.map AnalysisPrompt.prompt ≠
      some (Api.buildPrompt ⟨"hello", none, none⟩) := by decide

/-- C8 amended: in the Azure service the prompt-only handler does return
exactly the instruction text the full handler would send to the provider
(for the Gemini service the two texts differ, see the counterexample). -/
theorem c8_amended_azure_prompt_matches (req : AzureApi.TranscriptRequest)
    (h : pyStrip req.transcript ≠ "") :
    AzureApi.get_analysis_prompt req =
      Except.ok ⟨AzureApi.buildPrompt req,
        "Send this prompt to Azure OpenAI (" ++ req.model.toStr ++ ") to get the analysis"⟩ := by
  unfold AzureApi.get_analysis_prompt
  rw [if_neg h]

/-- C8 witness: a concrete non-blank request. -/
theorem c8_amended_azure_prompt_matches_witness :
    AzureApi.get_analysis_prompt ⟨"hello", none, none, none, .gpt41⟩ =
      Except.ok ⟨AzureApi.buildPrompt ⟨"hello", none, none, none, .gpt41⟩,
        "Send this prompt to Azure OpenAI (" ++ AzureApi.AzureModel.toStr .gpt41 ++ ") to get the analysis"⟩ :=
  c8_amended_azure_prompt_matches ⟨"hello", none, none, none, .gpt41⟩ (by decide)

/-- C9 counterexample: an open point without the blocking key makes the
whole Azure analysis call fail with a 500 instead of defaulting blocking
to false. -/
theorem c9_counterexample :
    (AzureApi.analyze_transcript envOk (providerOf replyNoBlocking)
        ⟨"hello", none, none, none, .gpt41⟩).1 =
      Except.error ⟨500, "Analysis failed: validation error for OpenPoint"⟩ := rfl

/-- C9 amended: an absent `open_points` mapping indeed yields the empty
sequence, but `blocking` is a required field: an element lacking it makes
normalization raise (failing the whole call) rather than default to
false. -/
theorem c9_amended_open_points :
    (∀ (fields : List (String × JValue)) (m : String) (td : Option Int)
       (res : AzureApi.MeetingAnalysis),
       jget fields "open_points" = none →
       AzureApi.normalize (.obj fields) m td = .ok res → res.open_points = []) ∧
    (∀ (fields : List (String × JValue)) (pts : List JValue)
       (ifs : List (String × JValue)) (m : String) (td : Option Int),
       jget fields "open_points" = some (.arr pts) →
       JValue.obj ifs ∈ pts →
       jget ifs "blocking" = none →
       ∃ e, AzureApi.normalize (.obj fields) m td = Except.error e) := by
  constructor
  · intro fields m td res habs hres
    have h2 := azure_normalize_ok_openPoints fields m td res hres
    rw [openPointsOfJson_absent fields habs] at h2
    exact (Except.ok.inj h2).symm
  · intro fields pts ifs m td h1 h2 h3
    have he := openPointOfJson_error_of_missing ifs h3
    obtain ⟨e, hoe⟩ := openPointsOfJson_error fields pts _ _ h1 h2 he
    exact azure_normalize_error_of_openPoints fields e m td hoe

/-- C9 witness: the empty object gives an empty open-point list; the
concrete blocking-less open point raises. -/
theorem c9_amended_open_points_witness :
    (⟨[], [], ⟨false, "Unable to determine", []⟩, ⟨0, "Unable to analyze", "Analysis failed"⟩,
        "gpt-4.1", none⟩ : AzureApi.MeetingAnalysis).open_points = ([] : List OpenPoint) ∧
    (∃ e, AzureApi.normalize (.obj noBlockingFields) "gpt-4.1" none = Except.error e) :=
  ⟨c9_amended_open_points.1 [] "gpt-4.1" none
     ⟨[], [], ⟨false, "Unable to determine", []⟩, ⟨0, "Unable to analyze", "Analysis failed"⟩,
      "gpt-4.1", none⟩ rfl rfl,
   c9_amended_open_points.2 noBlockingFields _ _ "gpt-4.1" none rfl
     (List.mem_singleton.mpr rfl) rfl⟩
